import Mathlib

/-!
Shallow embedding of `src/index.js` of `read-through-http-cache`:
an HTTP-semantics-aware read-through response cache (class `Cache`).

Modelling conventions:
* JS millisecond durations and wall-clock instants are `Nat`.
* The primary store (an LRU with per-entry `maxAge`) is an association list
  from keys to entries paired with an absolute expiry instant; `get` at time
  `now` returns an entry only while `now < expiresAt` (the LRU is created
  with `stale:false`).
* Promises are settled futures: an identifier into a table
  `PromiseId → Except CacheError Response`.  All concurrent readers of an
  entry share the identifier stored in the entry, never a copy.
* The external policy calculator (`http-cache-semantics`) is an oracle
  environment: entries store a `PolicyId`, and `Env.policies` gives the
  behaviour of each policy object; `Env.mkPolicy` is the
  `new CachePolicy(request, res, ...)` constructor.
* A JS response object is `Response`; a response that is missing or has no
  `headers` field is modelled as `headers = none` (both fail the
  `policy && res && res.headers` guard of `getCached` identically).
* The fetch callback `onCacheMissCallback` is an oracle
  `Nat → HeaderMap → Except CacheError Response` indexed by invocation
  number; each model function also returns the list of header maps it passed
  to the callback, in call order, so theorems can count invocations.
-/

namespace Im2Cache

/-- A JS header map: an association of header names to values where
assignment `h[k] = v` overwrites any previous binding of `k`. -/
abbrev HeaderMap := List (String × String)

/-- JS property assignment `headers[k] = v`. -/
def setHeader (h : HeaderMap) (k v : String) : HeaderMap :=
  (k, v) :: h.filter (fun p => p.1 ≠ k)

/-- JS property read `headers[k]`. -/
def getHeader (h : HeaderMap) (k : String) : Option String :=
  (h.find? (fun p => p.1 == k)).map Prod.snd

/-- Request descriptors are opaque to the cache: only the policy calculator
inspects them. -/
abbrev Request := Nat

/-- Identifier of a shared in-flight/settled future (`promise` field). -/
abbrev PromiseId := Nat

/-- Identifier of a policy object produced by the external calculator. -/
abbrev PolicyId := Nat

/-- Errors a `getCached` call can settle with. -/
inductive CacheError where
  /-- `throw Error("Bad cache args")` for a missing argument. -/
  | badArgs : CacheError
  /-- `throw Error(`Empty result: ${url}`)`. -/
  | emptyResult (url : String) : CacheError
  /-- `throw Error("Unexpected revalidation")`. -/
  | unexpectedRevalidation : CacheError
  /-- A rejection of the caller-supplied fetch callback. -/
  | fetchFailure (msg : String) : CacheError
deriving DecidableEq, Repr

/-- A JS response object as the cache sees it.  `headers = none` models a
missing response or a response without a `headers` field; `bodySize` is
`res.body.byteLength` when `Buffer.isBuffer(res.body)`, else `none`;
`ttl` is the ad-hoc `res.ttl` property the hit path writes. -/
structure Response where
  status : Nat := 200
  headers : Option HeaderMap := some []
  bodySize : Option Nat := none
  ttl : Option Nat := none
deriving DecidableEq, Repr

/-- Behaviour of one policy object of the external calculator.
`revalidatedPolicy` returns the identifier of the updated policy object
together with the `modified` verdict. -/
structure PolicyData where
  satisfiesWithoutRevalidation : Request → Bool
  timeToLive : Nat
  responseHeaders : HeaderMap
  revalidationHeaders : Request → HeaderMap
  revalidatedPolicy : HeaderMap → Response → PolicyId × Bool

/-- Oracle environment for the external policy calculator. -/
structure Env where
  policies : PolicyId → PolicyData
  mkPolicy : Request → Response → PolicyId

/-- An entry of the primary store (the object literals of `index.js`,
including the source's `inColdStoarge` spelling). -/
structure Entry where
  cost : Nat
  temp : Bool := false
  isError : Bool := false
  inColdStoarge : Bool := false
  policy : Option PolicyId := none
  promise : PromiseId
deriving DecidableEq, Repr

/-- A stored entry together with its absolute expiry instant
(insertion time plus the ttl passed to `storage.set`). -/
structure StoredEntry where
  entry : Entry
  expiresAt : Nat
deriving DecidableEq, Repr

/-- The primary store: key to entry-with-expiry. -/
abbrev Store := List (String × StoredEntry)

namespace Store

/-- `storage.get(url)` at instant `now`: the LRU is built with
`stale:false`, so an aged-out entry is not returned. -/
def get (s : Store) (now : Nat) (url : String) : Option Entry :=
  match s.find? (fun p => p.1 == url) with
  | some p => if now < p.2.expiresAt then some p.2.entry else none
  | none => none

/-- `storage.set(url, entry, ttl)` at instant `now`: overwrites. -/
def set (s : Store) (now : Nat) (url : String) (e : Entry) (ttl : Nat) : Store :=
  (url, ⟨e, now + ttl⟩) :: s.filter (fun p => p.1 ≠ url)

/-- `storage.del(url)`. -/
def del (s : Store) (url : String) : Store :=
  s.filter (fun p => p.1 ≠ url)

/-- The raw association for a key, expiry included (for stating what is
physically held, independent of ageing). -/
def lookup (s : Store) (url : String) : Option StoredEntry :=
  (s.find? (fun p => p.1 == url)).map Prod.snd

/-- Replace the entry object held for a key, keeping its expiry: JS field
mutation of the shared entry object does not touch the LRU ttl. -/
def mutateEntry (s : Store) (url : String) (f : Entry → Entry) : Store :=
  s.map (fun p => if p.1 == url then (p.1, ⟨f p.2.entry, p.2.expiresAt⟩) else p)

end Store

/-- The constructor options recognised by `new Cache(options)`; `none`
models an absent property. -/
structure CacheOptions where
  busyTimeout : Option Nat := none
  errorTimeout : Option Nat := none
  size : Option Nat := none
  maxAge : Option Nat := none
deriving Repr

/-- JS `a || b` on an optional number: an absent or zero (falsy) value
falls back to the default. -/
def jsOr (a : Option Nat) (b : Nat) : Nat :=
  match a with
  | some v => if v = 0 then b else v
  | none => b

/-- The resolved configuration of a `Cache` instance. -/
structure Config where
  busyTimeout : Nat
  errorTimeout : Nat
  size : Nat
  maxAge : Nat
deriving DecidableEq, Repr

/-- The constructor: `busyTimeout || 2000`, `errorTimeout || 200`,
`size || 500*1024*1024`, `maxAge || 24*3600*1000`. -/
def mkConfig (o : CacheOptions) : Config where
  busyTimeout := jsOr o.busyTimeout 2000
  errorTimeout := jsOr o.errorTimeout 200
  size := jsOr o.size (500 * 1024 * 1024)
  maxAge := jsOr o.maxAge (24 * 3600 * 1000)

/-- Outcome of `_putInColdStorage`: the `inColdStoarge` flag while the
secondary-store write is in flight, the flag after the write settles
(`catch` rolls it back on failure), and whether a write was attempted. -/
structure ColdPut where
  flagInFlight : Bool
  flagFinal : Bool
  writeAttempted : Bool
deriving DecidableEq, Repr

/-- `_putInColdStorage(url, res, cached)`: guarded by
`!cached.inColdStoarge && this._coldStorage`; demotes only when
`cached.policy.timeToLive() >= 3600*1000`; sets the flag and starts the
write in the same synchronous block; the write's `catch` resets the flag. -/
def putInColdStorage (hasColdStorage : Bool) (flag0 : Bool) (ttl : Nat)
    (writeSucceeds : Bool) : ColdPut :=
  if !flag0 && hasColdStorage then
    if ttl ≥ 3600 * 1000 then
      { flagInFlight := true
        flagFinal := writeSucceeds
        writeAttempted := true }
    else
      { flagInFlight := flag0, flagFinal := flag0, writeAttempted := false }
  else
    { flagInFlight := flag0, flagFinal := flag0, writeAttempted := false }

/-- The value `_getResult` resolves with: `{res, policy, inColdStoarge}`
(the third field is absent, hence falsy, on the non-cold paths). -/
structure GetResultOk where
  res : Response
  policy : PolicyId
  inColdStoarge : Bool := false
deriving DecidableEq, Repr

/-- The tail of `_getResult` (lines 107-113): unconditional
`onCacheMissCallback({})`; a `304` here is `Error("Unexpected
revalidation")`; otherwise a fresh policy is built from the response. -/
def getResultFullFetch (env : Env) (request : Request)
    (fetch : Nat → HeaderMap → Except CacheError Response) :
    Except CacheError GetResultOk × List HeaderMap :=
  match fetch 0 [] with
  | .error e => (.error e, [[]])
  | .ok res =>
    if res.status = 304 then (.error .unexpectedRevalidation, [[]])
    else (.ok { res := res, policy := env.mkPolicy request res }, [[]])

/-- `_getResult(url, request, cached, onCacheMissCallback)`.
`cachedPromise` is the settled value of `cached.promise` (unused when
`cached` is absent); `coldGet` is `none` when no cold storage is
configured, `some none` for a miss or an (ignored, logged) read failure,
`some (some res)` for a cold hit.  The source also mutates the detached
`cached.policy` field in place after revalidation; that object was
replaced in the store by the temp marker before `_getResult` ran, so the
mutation is invisible to the store and is not modelled. -/
def getResult (env : Env) (request : Request) (cached : Option Entry)
    (cachedPromise : Except CacheError Response)
    (coldGet : Option (Option Response))
    (fetch : Nat → HeaderMap → Except CacheError Response) :
    Except CacheError GetResultOk × List HeaderMap :=
  match coldGet with
  | some (some res) =>
    (.ok { res := res, policy := env.mkPolicy request res, inColdStoarge := true }, [])
  | _ =>
    match cached with
    | some c =>
      match c.policy with
      | some pid =>
        if c.isError then getResultFullFetch env request fetch
        else
          let p := env.policies pid
          let headers := p.revalidationHeaders request
          match fetch 0 headers with
          | .error e => (.error e, [headers])
          | .ok res =>
            let rp := p.revalidatedPolicy headers res
            if !rp.2 then
              match cachedPromise with
              | .error e => (.error e, [headers])
              | .ok prev => (.ok { res := prev, policy := rp.1 }, [headers])
            else if res.status = 304 then
              match fetch 1 [] with
              | .error e => (.error e, [headers, []])
              | .ok res2 => (.ok { res := res2, policy := rp.1 }, [headers, []])
            else (.ok { res := res, policy := rp.1 }, [headers])
      | none => getResultFullFetch env request fetch
    | none => getResultFullFetch env request fetch

/-- The `.then`/`.catch` handlers of `getCached` (lines 55-76), run at
instant `tSettle` over the store as it stands then: on success sanitize
headers, stamp `im2-cache`, and either store a `Ready` entry
(ttl + jitter) or delete on zero ttl; a missing `res.headers` deletes the
entry and throws `Empty result`, which the following `catch` then handles
like any failure by writing an `isError` entry with the error timeout. -/
def settleGetCached (cfg : Config) (env : Env) (url : String) (tSettle : Nat)
    (outcome : Except CacheError GetResultOk) (jitter : Nat)
    (pid : PromiseId) (store : Store) :
    Store × Except CacheError Response :=
  match outcome with
  | .error e =>
    (store.set tSettle url { cost := 30000, isError := true, promise := pid }
      cfg.errorTimeout, .error e)
  | .ok r =>
    match r.res.headers with
    | some _ =>
      let p := env.policies r.policy
      let ttl := p.timeToLive
      if ttl ≠ 0 then
        let res2 := { r.res with headers := some (setHeader p.responseHeaders
          "im2-cache" (if r.inColdStoarge then "cold" else "miss")) }
        let cost := 4000 + (match r.res.bodySize with | some n => n | none => 8000)
        let entry : Entry :=
          { cost := cost, inColdStoarge := r.inColdStoarge,
            policy := some r.policy, promise := pid }
        (store.set tSettle url entry (ttl + jitter), .ok res2)
      else
        let res2 := { r.res with headers := some (setHeader p.responseHeaders
          "im2-cache" "no-cache") }
        (store.del url, .ok res2)
    | none =>
      (((store.del url)).set tSettle url
        { cost := 30000, isError := true, promise := pid } cfg.errorTimeout,
       .error (.emptyResult url))

/-- Settled futures: resolutions of the shared `promise` objects. -/
abbrev PromiseTable := List (PromiseId × Except CacheError Response)

/-- Await a settled future. -/
def PromiseTable.resolve (t : PromiseTable) (id : PromiseId) :
    Except CacheError Response :=
  match t.find? (fun p => p.1 == id) with
  | some p => p.2
  | none => .error (.fetchFailure "unresolved")

/-- Update a shared future's value (JS mutation of the response object all
holders of this future share). -/
def PromiseTable.mutate (t : PromiseTable) (id : PromiseId)
    (v : Except CacheError Response) : PromiseTable :=
  (id, v) :: t.filter (fun p => p.1 ≠ id)

/-- Full cache state: the primary store plus the settled futures. -/
structure CacheState where
  store : Store
  promises : PromiseTable
deriving Repr

/-- The hit-path transform (lines 46-48): replace `res.headers` by the
policy's sanitized headers, stamp `im2-cache: hit`, and set the ad-hoc
`res.ttl` field — all in place on the shared stored response object. -/
def hitResponse (p : PolicyData) (res : Response) : Response :=
  { res with
    headers := some (setHeader p.responseHeaders "im2-cache" "hit")
    ttl := some p.timeToLive }

/-- The miss path of `getCached` (lines 54-80) combined with its settle:
create `resultPromise` (reading `cached` as fetched before the temp
marker), synchronously write the thundering-herd `temp` marker with the
busy timeout, then apply the `.then`/`.catch` handlers at `tSettle` and
record `resultPromise`'s settled value under `freshPid`. -/
def getCachedMiss (cfg : Config) (env : Env) (url : String) (request : Request)
    (tStart tSettle : Nat) (coldGet : Option (Option Response))
    (fetch : Nat → HeaderMap → Except CacheError Response)
    (jitter : Nat) (freshPid : PromiseId) (cached : Option Entry)
    (s : CacheState) :
    CacheState × Except CacheError Response × List HeaderMap :=
  let cachedPromise := match cached with
    | some c => s.promises.resolve c.promise
    | none => .error .badArgs
  let rc := getResult env request cached cachedPromise coldGet fetch
  let storeTmp := s.store.set tStart url
    { cost := 1, temp := true, promise := freshPid } cfg.busyTimeout
  let sr := settleGetCached cfg env url tSettle rc.1 jitter freshPid storeTmp
  ({ store := sr.1, promises := s.promises.mutate freshPid sr.2 }, sr.2, rc.2)

/-- The non-`temp` continuation of a `getCached` call on the entry it
read: the hit path (lines 41-51, serving the shared response after the
in-place mutation and the opportunistic `_putInColdStorage`) when the
entry has no policy or its policy satisfies the request, the miss path
otherwise. -/
def getCachedBody (cfg : Config) (env : Env) (hasColdStorage : Bool)
    (url : String) (request : Request) (tStart tSettle : Nat)
    (coldGet : Option (Option Response))
    (fetch : Nat → HeaderMap → Except CacheError Response)
    (jitter : Nat) (freshPid : PromiseId) (coldWriteOk : Bool)
    (cached : Option Entry) (s : CacheState) :
    CacheState × Except CacheError Response × List HeaderMap :=
  match cached with
  | some c =>
    let hitish := match c.policy with
      | none => true
      | some pid => (env.policies pid).satisfiesWithoutRevalidation request
    if hitish then
      match s.promises.resolve c.promise with
      | .error e => (s, .error e, [])
      | .ok res =>
        match c.policy with
        | none => (s, .ok res, [])
        | some pid =>
          let p := env.policies pid
          let cp := putInColdStorage hasColdStorage c.inColdStoarge
            p.timeToLive coldWriteOk
          let res2 := hitResponse p res
          let store2 := s.store.mutateEntry url
            (fun e => { e with inColdStoarge := cp.flagFinal })
          ({ store := store2,
             promises := s.promises.mutate c.promise (.ok res2) },
           .ok res2, [])
    else
      getCachedMiss cfg env url request tStart tSettle coldGet fetch
        jitter freshPid (some c) s
  | none =>
    getCachedMiss cfg env url request tStart tSettle coldGet fetch
      jitter freshPid none s

/-- One complete `getCached(url, request, onCacheMissCallback)` call by a
single caller: read the entry at `tStart`; a `temp` entry is awaited and
the call retried (`fuel` bounds the retries; `none` = still pending);
otherwise the call continues with `getCachedBody`. -/
def getCachedRun (cfg : Config) (env : Env) (hasColdStorage : Bool)
    (url : String) (request : Request) (tStart tSettle : Nat)
    (coldGet : Option (Option Response))
    (fetch : Nat → HeaderMap → Except CacheError Response)
    (jitter : Nat) (freshPid : PromiseId) (coldWriteOk : Bool)
    (fuel : Nat) (s : CacheState) :
    Option (CacheState × Except CacheError Response × List HeaderMap) :=
  match fuel with
  | 0 => none
  | f + 1 =>
    match s.store.get tStart url with
    | some c =>
      if c.temp then
        getCachedRun cfg env hasColdStorage url request tStart tSettle
          coldGet fetch jitter freshPid coldWriteOk f s
      else
        some (getCachedBody cfg env hasColdStorage url request tStart tSettle
          coldGet fetch jitter freshPid coldWriteOk (some c) s)
    | none =>
      some (getCachedBody cfg env hasColdStorage url request tStart tSettle
        coldGet fetch jitter freshPid coldWriteOk none s)

/-- What one caller's synchronous prefix of `getCached` does before the
first suspension point: start a fetch (writing the `temp` marker in the
same synchronous block, line 79), await an in-flight future (line 38), or
serve a hit from the stored future (line 42). -/
inductive StartAction where
  | startFetch (pid : PromiseId) : StartAction
  | awaitPending (pid : PromiseId) : StartAction
  | serveHit (pid : PromiseId) : StartAction
deriving DecidableEq, Repr

/-- The synchronous prefix of `getCached`: everything from the
`storage.get` to either a suspension point or the `temp`-marker write;
cooperative concurrency runs it atomically with respect to other
callers. -/
def getCachedStart (cfg : Config) (env : Env) (url : String)
    (request : Request) (tStart : Nat) (freshPid : PromiseId)
    (store : Store) : Store × StartAction :=
  match store.get tStart url with
  | none =>
    (store.set tStart url { cost := 1, temp := true, promise := freshPid }
      cfg.busyTimeout, .startFetch freshPid)
  | some c =>
    if c.temp then (store, .awaitPending c.promise)
    else
      let hitish := match c.policy with
        | none => true
        | some pid => (env.policies pid).satisfiesWithoutRevalidation request
      if hitish then (store, .serveHit c.promise)
      else
        (store.set tStart url { cost := 1, temp := true, promise := freshPid }
          cfg.busyTimeout, .startFetch freshPid)

/-- Interleaving of the synchronous prefixes of several concurrent
`getCached` callers, each given by its start instant and the identity of
the `resultPromise` it would create. -/
def runStarts (cfg : Config) (env : Env) (url : String) (request : Request) :
    List (Nat × PromiseId) → Store → Store × List StartAction
  | [], store => (store, [])
  | (t, pid) :: rest, store =>
    let sa := getCachedStart cfg env url request t pid store
    let rec2 := runStarts cfg env url request rest sa.1
    (rec2.1, sa.2 :: rec2.2)

/-- Number of callers that start a fetch of their own. -/
def countFetchStarts (acts : List StartAction) : Nat :=
  (acts.filter (fun a => match a with
    | .startFetch _ => true
    | _ => false)).length

/-! Concrete fixtures for evaluating the model on closed inputs. -/

/-- A policy that requires revalidation and computes zero ttl. -/
def pdStale : PolicyData where
  satisfiesWithoutRevalidation := fun _ => false
  timeToLive := 0
  responseHeaders := [("x-served-by", "origin")]
  revalidationHeaders := fun _ => [("if-none-match", "etag1")]
  revalidatedPolicy := fun _ _ => (3, false)

/-- A policy that satisfies requests without revalidation, with a two-hour
ttl (long enough for cold-storage demotion). -/
def pdFresh : PolicyData where
  satisfiesWithoutRevalidation := fun _ => true
  timeToLive := 7200000
  responseHeaders := [("content-type", "text/plain")]
  revalidationHeaders := fun _ => []
  revalidatedPolicy := fun _ _ => (3, false)

/-- The policy produced by `new CachePolicy(...)` in the fixture
environment: zero ttl (an uncacheable response). -/
def pdZero : PolicyData where
  satisfiesWithoutRevalidation := fun _ => false
  timeToLive := 0
  responseHeaders := [("cache-control", "no-store")]
  revalidationHeaders := fun _ => []
  revalidatedPolicy := fun _ _ => (3, false)

/-- The policy produced by a successful revalidation in the fixture
environment. -/
def pdNew : PolicyData where
  satisfiesWithoutRevalidation := fun _ => true
  timeToLive := 5000
  responseHeaders := [("content-type", "text/html")]
  revalidationHeaders := fun _ => []
  revalidatedPolicy := fun _ _ => (3, true)

/-- Fixture environment: policy 0 is stale, 1 is fresh, 3 is the
revalidated policy, and the constructor always builds policy 2 (zero
ttl). -/
def envA : Env where
  policies := fun pid =>
    if pid = 0 then pdStale
    else if pid = 1 then pdFresh
    else if pid = 3 then pdNew
    else pdZero
  mkPolicy := fun _ _ => 2

/-- A plain 200 response. -/
def resA : Response := { status := 200, headers := some [("a", "b")] }

/-- A 304 response. -/
def res304 : Response := { status := 304, headers := some [] }

/-- A response with no usable headers (models a missing/empty result). -/
def resEmpty : Response := { status := 200, headers := none }

/-- A `Ready` entry holding the stale policy 0 and future 5. -/
def entryStale : Entry :=
  { cost := 10, policy := some 0, promise := 5 }

/-- A `Ready` entry holding the fresh policy 1 and future 5. -/
def entryFresh : Entry :=
  { cost := 10, policy := some 1, promise := 5 }

/-! Helper lemmas about the store and promise-table operations. -/

theorem Store.get_set (s : Store) (t now : Nat) (url : String) (e : Entry)
    (ttl : Nat) :
    (s.set t url e ttl).get now url = if now < t + ttl then some e else none := by
  simp [Store.get, Store.set]

theorem Store.lookup_set (s : Store) (t : Nat) (url : String) (e : Entry)
    (ttl : Nat) :
    (s.set t url e ttl).lookup url = some ⟨e, t + ttl⟩ := by
  simp [Store.lookup, Store.set]

theorem Store.lookup_del (s : Store) (url : String) :
    (s.del url).lookup url = none := by
  have h : (s.filter (fun p => p.1 ≠ url)).find? (fun p => p.1 == url) = none := by
    rw [List.find?_eq_none]
    intro p hp
    have hm := List.of_mem_filter hp
    simpa using hm
  simp [Store.del, Store.lookup, h]

theorem Store.get_eq_none_of_lookup_eq_none (s : Store) (t : Nat)
    (url : String) (h : s.lookup url = none) : s.get t url = none := by
  unfold Store.lookup at h
  have hf : s.find? (fun p => p.1 == url) = none := by
    rcases hx : s.find? (fun p => p.1 == url) with _ | p
    · exact hx
    · rw [hx] at h
      simp at h
  unfold Store.get
  rw [hf]

theorem PromiseTable.resolve_mutate (t : PromiseTable) (id : PromiseId)
    (v : Except CacheError Response) : (t.mutate id v).resolve id = v := by
  simp [PromiseTable.mutate, PromiseTable.resolve]

theorem getHeader_setHeader (h : HeaderMap) (k v : String) :
    getHeader (setHeader h k v) k = some v := by
  simp [getHeader, setHeader]

theorem getResultFullFetch_calls (env : Env) (request : Request)
    (fetch : Nat → HeaderMap → Except CacheError Response) :
    (getResultFullFetch env request fetch).2 = [[]] := by
  unfold getResultFullFetch
  rcases fetch 0 [] with e | res
  · rfl
  · by_cases h : res.status = 304 <;> simp [h]

/-! Claim theorems. -/

/-- C9 counterexample: constructed with no options, the cache does not have
the claimed defaults — the maximum total store cost defaults to
`500*1024*1024`, not `500*10^6`. -/
theorem c9_defaults_counterexample :
    ¬ ((mkConfig {}).busyTimeout = 2000 ∧ (mkConfig {}).errorTimeout = 200
       ∧ (mkConfig {}).size = 500 * 10 ^ 6
       ∧ (mkConfig {}).maxAge = 24 * 3600 * 1000) := by
  decide

/-- C9 (amended): constructed with no options, the defaults are
`busyTimeout = 2000` ms, `errorTimeout = 200` ms, maximum total store cost
`500*1024*1024` (500 MiB), and `maxAge = 24` hours. -/
theorem c9_defaults :
    mkConfig {} = { busyTimeout := 2000, errorTimeout := 200,
                    size := 500 * 1024 * 1024, maxAge := 24 * 3600 * 1000 } := by
  rfl

/-- C7: for an entry not yet in cold storage, `_putInColdStorage` attempts
the secondary-store write exactly when cold storage is configured and the
policy ttl is at least one hour; the `inColdStoarge` flag while the write
is in flight equals "a write was attempted" (it is set in the same
synchronous block that starts the write, never before an attempt), and
after the write settles the flag holds exactly when the attempted write
succeeded — a failure rolls it back to `false`, and entries with ttl under
one hour are never written and keep the flag `false`. -/
theorem c7_inColdStoarge_flag (hs ok : Bool) (ttl : Nat) :
    (putInColdStorage hs false ttl ok).writeAttempted
        = (hs && decide (3600 * 1000 ≤ ttl))
    ∧ (putInColdStorage hs false ttl ok).flagInFlight
        = (putInColdStorage hs false ttl ok).writeAttempted
    ∧ (putInColdStorage hs false ttl ok).flagFinal
        = ((putInColdStorage hs false ttl ok).writeAttempted && ok) := by
  cases hs <;>
    simp only [putInColdStorage, Bool.not_false, Bool.true_and, Bool.and_self] <;>
    by_cases h : 3600 * 1000 ≤ ttl <;>
    simp [h]

/-- C8: with no usable cached entry (none, or one without a policy, or an
errored one) and no cold-storage copy, `_getResult` performs exactly one
unconditional fetch with an empty header map, and a `304` response there
fails the call with the `Unexpected revalidation` error instead of
returning the response. -/
theorem c8_unexpected_revalidation (env : Env) (request : Request)
    (cached : Option Entry) (cp : Except CacheError Response)
    (coldGet : Option (Option Response))
    (fetch : Nat → HeaderMap → Except CacheError Response) (r : Response)
    (hunusable : ∀ c, cached = some c → c.policy = none ∨ c.isError = true)
    (hcold : coldGet = none ∨ coldGet = some none)
    (hf : fetch 0 [] = .ok r) (h304 : r.status = 304) :
    getResult env request cached cp coldGet fetch
      = (.error .unexpectedRevalidation, [[]]) := by
  have hful : getResultFullFetch env request fetch
      = (.error .unexpectedRevalidation, [[]]) := by
    unfold getResultFullFetch
    rw [hf]
    simp [h304]
  rcases hcold with h | h
  all_goals subst h
  all_goals (
    rcases cached with _ | c
    · simpa [getResult] using hful
    · rcases hu : c.policy with _ | pid
      · simpa [getResult, hu] using hful
      · have hie : c.isError = true := by
          rcases hunusable c rfl with h1 | h1
          · simp [hu] at h1
          · exact h1
        simpa [getResult, hu, hie] using hful)

/-- C8 witness: a concrete no-entry, no-cold-storage call whose fetch
returns a `304` fails with the unexpected-revalidation error. -/
theorem c8_witness :
    ((∀ c, (none : Option Entry) = some c → c.policy = none ∨ c.isError = true)
     ∧ ((none : Option (Option Response)) = none
        ∨ (none : Option (Option Response)) = some none)
     ∧ (fun _ _ => (Except.ok res304 : Except CacheError Response)) 0 ([] : HeaderMap)
         = .ok res304
     ∧ res304.status = 304)
    ∧ getResult envA 0 none (.error .badArgs) none (fun _ _ => .ok res304)
        = (.error .unexpectedRevalidation, [[]]) := by
  refine ⟨⟨?_, ?_, ?_, ?_⟩, ?_⟩
  · intro c h
    cases h
  · exact Or.inl rfl
  · rfl
  · rfl
  · exact c8_unexpected_revalidation envA 0 none (.error .badArgs) none
      (fun _ _ => .ok res304) res304 (fun c h => by cases h) (Or.inl rfl) rfl rfl

/-- C4 counterexample: with cold storage configured and holding a copy for
the key, `_getResult` for a `Ready` entry whose policy requires
revalidation returns the cold response without invoking the fetch
callback at all — not even once with the revalidation headers. -/
theorem c4_counterexample :
    entryStale.policy = some 0 ∧ entryStale.isError = false
    ∧ (envA.policies 0).satisfiesWithoutRevalidation 0 = false
    ∧ (envA.policies 0).revalidationHeaders 0 = [("if-none-match", "etag1")]
    ∧ (getResult envA 0 (some entryStale) (.ok resA) (some (some resA))
        (fun _ _ => .ok resA)).2 = [] := by
  refine ⟨?_, ?_, ?_, ?_, ?_⟩ <;> rfl

/-- C4 (amended): provided cold storage is not configured or reports a
miss, `_getResult` for a `Ready` entry (policy present, not errored)
calls the fetch callback with the policy's revalidation headers; on a
not-modified verdict it returns the previously stored response with
exactly that one invocation, and on a modified verdict whose revalidation
response itself has status 304 it makes exactly one additional
unconditional call `fetchCallback({})` and returns that result. -/
theorem c4_revalidation (env : Env) (request : Request) (c : Entry)
    (pid : PolicyId) (cachedPromise : Except CacheError Response)
    (coldGet : Option (Option Response))
    (fetch : Nat → HeaderMap → Except CacheError Response) (r1 : Response)
    (hpol : c.policy = some pid) (herr : c.isError = false)
    (hcold : coldGet = none ∨ coldGet = some none)
    (hf : fetch 0 ((env.policies pid).revalidationHeaders request) = .ok r1) :
    (((env.policies pid).revalidatedPolicy
        ((env.policies pid).revalidationHeaders request) r1).2 = false →
      ∀ prev, cachedPromise = .ok prev →
      getResult env request (some c) cachedPromise coldGet fetch
        = (.ok { res := prev,
                 policy := ((env.policies pid).revalidatedPolicy
                   ((env.policies pid).revalidationHeaders request) r1).1 },
           [(env.policies pid).revalidationHeaders request]))
    ∧ (((env.policies pid).revalidatedPolicy
        ((env.policies pid).revalidationHeaders request) r1).2 = true →
      r1.status = 304 →
      ∀ r2, fetch 1 [] = .ok r2 →
      getResult env request (some c) cachedPromise coldGet fetch
        = (.ok { res := r2,
                 policy := ((env.policies pid).revalidatedPolicy
                   ((env.policies pid).revalidationHeaders request) r1).1 },
           [(env.policies pid).revalidationHeaders request, []])) := by
  constructor
  · intro hmod prev hcp
    rcases hcold with h | h
    all_goals subst h
    all_goals subst hcp
    all_goals simp [getResult, hpol, herr, hf, hmod]
  · intro hmod h304 r2 hf2
    rcases hcold with h | h
    all_goals subst h
    all_goals simp [getResult, hpol, herr, hf, hmod, h304, hf2]

/-- C4 witness: a concrete not-modified revalidation, with no cold
storage, reuses the stored response after a single conditional fetch. -/
theorem c4_witness :
    (entryStale.policy = some 0 ∧ entryStale.isError = false
     ∧ ((none : Option (Option Response)) = none
        ∨ (none : Option (Option Response)) = some none)
     ∧ (fun _ _ => (Except.ok resA : Except CacheError Response)) 0
         ((envA.policies 0).revalidationHeaders 0) = .ok resA)
    ∧ ((((envA.policies 0).revalidatedPolicy
          ((envA.policies 0).revalidationHeaders 0) resA).2 = false →
        ∀ prev, (Except.ok resA : Except CacheError Response) = .ok prev →
        getResult envA 0 (some entryStale) (.ok resA) none (fun _ _ => .ok resA)
          = (.ok { res := prev,
                   policy := (((envA.policies 0)).revalidatedPolicy
                     ((envA.policies 0).revalidationHeaders 0) resA).1 },
             [(envA.policies 0).revalidationHeaders 0]))
       ∧ ((((envA.policies 0)).revalidatedPolicy
            ((envA.policies 0).revalidationHeaders 0) resA).2 = true →
          resA.status = 304 →
          ∀ r2, (fun _ _ => (Except.ok resA : Except CacheError Response)) 1 ([] : HeaderMap)
            = .ok r2 →
          getResult envA 0 (some entryStale) (.ok resA) none (fun _ _ => .ok resA)
            = (.ok { res := r2,
                     policy := (((envA.policies 0)).revalidatedPolicy
                       ((envA.policies 0).revalidationHeaders 0) resA).1 },
               [(envA.policies 0).revalidationHeaders 0, []]))) := by
  refine ⟨⟨rfl, rfl, Or.inl rfl, rfl⟩, ?_⟩
  exact c4_revalidation envA 0 entryStale 0 (.ok resA) none
    (fun _ _ => .ok resA) resA rfl rfl (Or.inl rfl) rfl

/-- C2 counterexample: a concrete `getCached` call whose fetch succeeds
with a result that has no headers fails with the empty-result error, yet
immediately after the call settles the primary store still holds an entry
for the key (the generic failure handler cached the failure). -/
theorem c2_counterexample :
    (getCachedRun (mkConfig {}) envA false "k" 0 0 0 none
        (fun _ _ => .ok resEmpty) 0 7 false 1 ⟨[], []⟩).map
      (fun x => (x.2.1, x.2.2, (x.1.store.lookup "k").isSome))
      = some (.error (.emptyResult "k"), [[]], true) := by
  rfl

/-- C2 (amended): when the fetch succeeds but the result is missing the
response or its headers, the entry for the key is deleted and the call
fails with the empty-result error — but that failure then runs through the
generic failure handler, which writes an `Errored` entry holding the
failed future with the error timeout; so immediately after the call
settles the primary store holds that `Errored` entry for the key (it is
not entry-free). -/
theorem c2_empty_result (cfg : Config) (env : Env) (url : String)
    (request : Request) (tStart tSettle : Nat)
    (coldGet : Option (Option Response))
    (fetch : Nat → HeaderMap → Except CacheError Response)
    (jitter : Nat) (freshPid : PromiseId) (cached : Option Entry)
    (s : CacheState) (r : GetResultOk) (calls : List HeaderMap)
    (hres : getResult env request cached
      (match cached with
       | some c => s.promises.resolve c.promise
       | none => .error .badArgs) coldGet fetch = (.ok r, calls))
    (hhdr : r.res.headers = none) :
    (getCachedMiss cfg env url request tStart tSettle coldGet fetch jitter
        freshPid cached s).2.1 = .error (.emptyResult url)
    ∧ (getCachedMiss cfg env url request tStart tSettle coldGet fetch jitter
        freshPid cached s).1.store.lookup url
      = some ⟨{ cost := 30000, isError := true, promise := freshPid },
              tSettle + cfg.errorTimeout⟩ := by
  simp only [getCachedMiss]
  rw [hres]
  simp [settleGetCached, hhdr, Store.lookup_set]

/-- C2 witness: the concrete empty-result call of the counterexample,
through the amended theorem. -/
theorem c2_witness :
    (getResult envA 0 none
        (match (none : Option Entry) with
         | some c => (⟨[], []⟩ : CacheState).promises.resolve c.promise
         | none => .error .badArgs) none (fun _ _ => .ok resEmpty)
      = (.ok { res := resEmpty, policy := 2 }, [[]])
     ∧ ({ res := resEmpty, policy := 2 } : GetResultOk).res.headers = none)
    ∧ ((getCachedMiss (mkConfig {}) envA "k" 0 0 0 none
          (fun _ _ => .ok resEmpty) 0 7 none ⟨[], []⟩).2.1
        = .error (.emptyResult "k")
       ∧ (getCachedMiss (mkConfig {}) envA "k" 0 0 0 none
          (fun _ _ => .ok resEmpty) 0 7 none ⟨[], []⟩).1.store.lookup "k"
        = some ⟨{ cost := 30000, isError := true, promise := 7 },
                0 + (mkConfig {}).errorTimeout⟩) := by
  refine ⟨⟨rfl, rfl⟩, ?_⟩
  exact c2_empty_result (mkConfig {}) envA "k" 0 0 0 none
    (fun _ _ => .ok resEmpty) 0 7 none ⟨[], []⟩
    { res := resEmpty, policy := 2 } [[]] rfl rfl

/-- C5: when the fetch succeeds with a usable response but the policy
computes a zero time-to-live, the entry for the key is deleted (the store
holds nothing for it afterward), the response carries
`im2-cache: no-cache`, and the response is still returned to the
caller. -/
theorem c5_zero_ttl (cfg : Config) (env : Env) (url : String)
    (request : Request) (tStart tSettle : Nat)
    (coldGet : Option (Option Response))
    (fetch : Nat → HeaderMap → Except CacheError Response)
    (jitter : Nat) (freshPid : PromiseId) (cached : Option Entry)
    (s : CacheState) (r : GetResultOk) (calls : List HeaderMap)
    (hs : HeaderMap)
    (hres : getResult env request cached
      (match cached with
       | some c => s.promises.resolve c.promise
       | none => .error .badArgs) coldGet fetch = (.ok r, calls))
    (hhdr : r.res.headers = some hs)
    (httl : (env.policies r.policy).timeToLive = 0) :
    (getCachedMiss cfg env url request tStart tSettle coldGet fetch jitter
        freshPid cached s).1.store.lookup url = none
    ∧ (getCachedMiss cfg env url request tStart tSettle coldGet fetch jitter
        freshPid cached s).2.1
      = .ok { r.res with headers := some (setHeader
          (env.policies r.policy).responseHeaders "im2-cache" "no-cache") }
    ∧ getHeader (setHeader (env.policies r.policy).responseHeaders
        "im2-cache" "no-cache") "im2-cache" = some "no-cache" := by
  refine ⟨?_, ?_, getHeader_setHeader _ _ _⟩
  all_goals (
    simp only [getCachedMiss]
    rw [hres]
    simp [settleGetCached, hhdr, httl, Store.lookup_del])

/-- C5 witness: a concrete uncacheable fetch (policy ttl zero) leaves no
entry and returns the response stamped `no-cache`. -/
theorem c5_witness :
    (getResult envA 0 none
        (match (none : Option Entry) with
         | some c => (⟨[], []⟩ : CacheState).promises.resolve c.promise
         | none => .error .badArgs) none (fun _ _ => .ok resA)
      = (.ok { res := resA, policy := 2 }, [[]])
     ∧ ({ res := resA, policy := 2 } : GetResultOk).res.headers = some [("a", "b")]
     ∧ (envA.policies 2).timeToLive = 0)
    ∧ ((getCachedMiss (mkConfig {}) envA "k" 0 0 0 none
          (fun _ _ => .ok resA) 0 7 none ⟨[], []⟩).1.store.lookup "k" = none
       ∧ (getCachedMiss (mkConfig {}) envA "k" 0 0 0 none
          (fun _ _ => .ok resA) 0 7 none ⟨[], []⟩).2.1
        = .ok { resA with headers := some (setHeader
            (envA.policies 2).responseHeaders "im2-cache" "no-cache") }
       ∧ getHeader (setHeader (envA.policies 2).responseHeaders
            "im2-cache" "no-cache") "im2-cache" = some "no-cache") := by
  refine ⟨⟨rfl, rfl, rfl⟩, ?_⟩
  exact c5_zero_ttl (mkConfig {}) envA "k" 0 0 0 none
    (fun _ _ => .ok resA) 0 7 none ⟨[], []⟩
    { res := resA, policy := 2 } [[]] [("a", "b")] rfl rfl rfl

/-- C3: for a stored `Ready` entry whose policy satisfies the request
without revalidation, `getCached` makes no fetch-callback invocation and
returns the stored response with its headers replaced by the policy's
sanitized response headers plus `im2-cache: hit` (status and body are
those of the stored response). -/
theorem c3_hit (cfg : Config) (env : Env) (hcs : Bool) (url : String)
    (request : Request) (tStart tSettle : Nat)
    (coldGet : Option (Option Response))
    (fetch : Nat → HeaderMap → Except CacheError Response)
    (jitter : Nat) (freshPid : PromiseId) (cwOk : Bool) (fuel : Nat)
    (s : CacheState) (c : Entry) (pid : PolicyId) (res : Response)
    (hget : s.store.get tStart url = some c)
    (htemp : c.temp = false)
    (hpol : c.policy = some pid)
    (hsat : (env.policies pid).satisfiesWithoutRevalidation request = true)
    (hpr : s.promises.resolve c.promise = .ok res) :
    (getCachedRun cfg env hcs url request tStart tSettle coldGet fetch jitter
        freshPid cwOk (fuel + 1) s).map (fun x => (x.2.1, x.2.2))
      = some (.ok (hitResponse (env.policies pid) res), [])
    ∧ (hitResponse (env.policies pid) res).headers
      = some (setHeader (env.policies pid).responseHeaders "im2-cache" "hit")
    ∧ getHeader (setHeader (env.policies pid).responseHeaders "im2-cache"
        "hit") "im2-cache" = some "hit"
    ∧ (hitResponse (env.policies pid) res).status = res.status
    ∧ (hitResponse (env.policies pid) res).bodySize = res.bodySize := by
  refine ⟨?_, rfl, getHeader_setHeader _ _ _, rfl, rfl⟩
  unfold getCachedRun
  rw [hget]
  simp [getCachedBody, htemp, hpol, hsat, hpr]

/-- C3 witness: a concrete fresh hit returns the stored response tagged
`im2-cache: hit` with no callback invocation. -/
theorem c3_witness :
    ((⟨[("k", ⟨entryFresh, 10000⟩)], [(5, .ok resA)]⟩ : CacheState).store.get
        0 "k" = some entryFresh
     ∧ entryFresh.temp = false
     ∧ entryFresh.policy = some 1
     ∧ (envA.policies 1).satisfiesWithoutRevalidation 0 = true
     ∧ (⟨[("k", ⟨entryFresh, 10000⟩)], [(5, .ok resA)]⟩ : CacheState).promises.resolve
        entryFresh.promise = .ok resA)
    ∧ ((getCachedRun (mkConfig {}) envA true "k" 0 0 0 none
          (fun _ _ => .ok resA) 0 7 true 1
          ⟨[("k", ⟨entryFresh, 10000⟩)], [(5, .ok resA)]⟩).map
          (fun x => (x.2.1, x.2.2))
        = some (.ok (hitResponse (envA.policies 1) resA), [])
       ∧ (hitResponse (envA.policies 1) resA).headers
        = some (setHeader (envA.policies 1).responseHeaders "im2-cache" "hit")
       ∧ getHeader (setHeader (envA.policies 1).responseHeaders "im2-cache"
          "hit") "im2-cache" = some "hit"
       ∧ (hitResponse (envA.policies 1) resA).status = resA.status
       ∧ (hitResponse (envA.policies 1) resA).bodySize = resA.bodySize) := by
  refine ⟨⟨rfl, rfl, rfl, rfl, rfl⟩, ?_⟩
  exact c3_hit (mkConfig {}) envA true "k" 0 0 0 none (fun _ _ => .ok resA)
    0 7 true 1 ⟨[("k", ⟨entryFresh, 10000⟩)], [(5, .ok resA)]⟩
    entryFresh 1 resA rfl rfl rfl rfl rfl

/-- C10: on a cache hit the stored response object is mutated in place
before being returned: afterward the entry's shared future resolves to
exactly the response handed back, whose headers are the policy's sanitized
headers plus the `im2-cache: hit` marker and whose `ttl` field has been
set to the policy's `timeToLive()` — observed by every caller sharing that
response object. -/
theorem c10_hit_mutation (cfg : Config) (env : Env) (hcs : Bool)
    (url : String) (request : Request) (tStart tSettle : Nat)
    (coldGet : Option (Option Response))
    (fetch : Nat → HeaderMap → Except CacheError Response)
    (jitter : Nat) (freshPid : PromiseId) (cwOk : Bool) (fuel : Nat)
    (s : CacheState) (c : Entry) (pid : PolicyId) (res : Response)
    (hget : s.store.get tStart url = some c)
    (htemp : c.temp = false)
    (hpol : c.policy = some pid)
    (hsat : (env.policies pid).satisfiesWithoutRevalidation request = true)
    (hpr : s.promises.resolve c.promise = .ok res) :
    (getCachedRun cfg env hcs url request tStart tSettle coldGet fetch jitter
        freshPid cwOk (fuel + 1) s).map
      (fun x => (x.1.promises.resolve c.promise, x.2.1))
      = some (.ok (hitResponse (env.policies pid) res),
              .ok (hitResponse (env.policies pid) res))
    ∧ (hitResponse (env.policies pid) res).ttl
      = some (env.policies pid).timeToLive
    ∧ (hitResponse (env.policies pid) res).headers
      = some (setHeader (env.policies pid).responseHeaders "im2-cache"
          "hit") := by
  refine ⟨?_, rfl, rfl⟩
  unfold getCachedRun
  rw [hget]
  simp [getCachedBody, htemp, hpol, hsat, hpr, PromiseTable.resolve_mutate]

/-- C10 witness: the concrete hit of the C3 scenario leaves the shared
future resolving to the returned, mutated response with its `ttl` field
set. -/
theorem c10_witness :
    ((⟨[("k", ⟨entryFresh, 10000⟩)], [(5, .ok resA)]⟩ : CacheState).store.get
        0 "k" = some entryFresh
     ∧ entryFresh.temp = false
     ∧ entryFresh.policy = some 1
     ∧ (envA.policies 1).satisfiesWithoutRevalidation 0 = true
     ∧ (⟨[("k", ⟨entryFresh, 10000⟩)], [(5, .ok resA)]⟩ : CacheState).promises.resolve
        entryFresh.promise = .ok resA)
    ∧ ((getCachedRun (mkConfig {}) envA true "k" 0 0 0 none
          (fun _ _ => .ok resA) 0 7 true 1
          ⟨[("k", ⟨entryFresh, 10000⟩)], [(5, .ok resA)]⟩).map
          (fun x => (x.1.promises.resolve entryFresh.promise, x.2.1))
        = some (.ok (hitResponse (envA.policies 1) resA),
                .ok (hitResponse (envA.policies 1) resA))
       ∧ (hitResponse (envA.policies 1) resA).ttl
        = some (envA.policies 1).timeToLive
       ∧ (hitResponse (envA.policies 1) resA).headers
        = some (setHeader (envA.policies 1).responseHeaders "im2-cache"
            "hit")) := by
  refine ⟨⟨rfl, rfl, rfl, rfl, rfl⟩, ?_⟩
  exact c10_hit_mutation (mkConfig {}) envA true "k" 0 0 0 none
    (fun _ _ => .ok resA) 0 7 true 1
    ⟨[("k", ⟨entryFresh, 10000⟩)], [(5, .ok resA)]⟩
    entryFresh 1 resA rfl rfl rfl rfl rfl

theorem getCachedStart_pending (cfg : Config) (env : Env) (url : String)
    (request : Request) (t : Nat) (pid : PromiseId) (store : Store)
    (e : Entry) (hget : store.get t url = some e) (he : e.temp = true) :
    getCachedStart cfg env url request t pid store
      = (store, .awaitPending e.promise) := by
  unfold getCachedStart
  rw [hget]
  simp [he]

theorem runStarts_awaitPending (cfg : Config) (env : Env) (url : String)
    (request : Request) (e : Entry) (he : e.temp = true) :
    ∀ (rest : List (Nat × PromiseId)) (store : Store),
    (∀ tp ∈ rest, store.get tp.1 url = some e) →
    runStarts cfg env url request rest store
      = (store, rest.map (fun _ => .awaitPending e.promise)) := by
  intro rest
  induction rest with
  | nil =>
    intro store _
    rfl
  | cons tp rest ih =>
    intro store h
    obtain ⟨t, pid⟩ := tp
    have hget := h (t, pid) (List.mem_cons_self _ _)
    have hrest : ∀ q ∈ rest, store.get q.1 url = some e :=
      fun q hq => h q (List.mem_cons_of_mem _ hq)
    simp only [runStarts]
    rw [getCachedStart_pending cfg env url request t pid store e hget he,
      ih store hrest]
    rfl

theorem countFetchStarts_awaitPending (l : List (Nat × PromiseId))
    (pid : PromiseId) :
    countFetchStarts (l.map (fun _ => .awaitPending pid)) = 0 := by
  induction l with
  | nil => rfl
  | cons a l ih => simp [countFetchStarts, List.filter] at ih ⊢

/-- C1: from a store with no entry for the key, any number of concurrent
`getCached` callers — each running its synchronous prefix within the busy
timeout of the first — produce exactly one fetch start: the first caller
writes the `Pending` (`temp`) marker synchronously, with no suspension
point before it, and every later caller finds the marker and awaits the
first caller's shared promise instead of starting a second fetch; the
fetch callback is therefore started at most once. -/
theorem c1_singleflight (cfg : Config) (env : Env) (url : String)
    (request : Request) (t0 : Nat) (p0 : PromiseId)
    (rest : List (Nat × PromiseId)) (store : Store)
    (h0 : store.lookup url = none)
    (hconc : ∀ tp ∈ rest, tp.1 < t0 + cfg.busyTimeout) :
    (runStarts cfg env url request ((t0, p0) :: rest) store).2
      = .startFetch p0 :: rest.map (fun _ => .awaitPending p0)
    ∧ countFetchStarts
        ((runStarts cfg env url request ((t0, p0) :: rest) store).2) ≤ 1 := by
  have hget0 : store.get t0 url = none :=
    Store.get_eq_none_of_lookup_eq_none store t0 url h0
  have hstart : getCachedStart cfg env url request t0 p0 store
      = (store.set t0 url { cost := 1, temp := true, promise := p0 }
          cfg.busyTimeout, .startFetch p0) := by
    unfold getCachedStart
    rw [hget0]
  have hrest : ∀ tp ∈ rest,
      (store.set t0 url { cost := 1, temp := true, promise := p0 }
        cfg.busyTimeout).get tp.1 url
      = some { cost := 1, temp := true, promise := p0 } := by
    intro tp htp
    rw [Store.get_set]
    simp [hconc tp htp]
  have hrun := runStarts_awaitPending cfg env url request
    { cost := 1, temp := true, promise := p0 } rfl rest _ hrest
  have hmain : (runStarts cfg env url request ((t0, p0) :: rest) store).2
      = .startFetch p0 :: rest.map (fun _ => .awaitPending p0) := by
    simp only [runStarts]
    rw [hstart, hrun]
  refine ⟨hmain, ?_⟩
  rw [hmain]
  simp [countFetchStarts, List.filter, countFetchStarts_awaitPending rest p0]

/-- C1 witness: three concrete concurrent callers for an absent key — one
fetch start, the other two await the first caller's promise. -/
theorem c1_witness :
    (([] : Store).lookup "k" = none
     ∧ (∀ tp ∈ [(1, 11), (2, 12)], tp.1 < 0 + (mkConfig {}).busyTimeout))
    ∧ ((runStarts (mkConfig {}) envA "k" 0 ((0, 10) :: [(1, 11), (2, 12)])
          []).2
        = .startFetch 10
          :: [(1, 11), (2, 12)].map (fun _ => .awaitPending 10)
       ∧ countFetchStarts
          ((runStarts (mkConfig {}) envA "k" 0 ((0, 10) :: [(1, 11), (2, 12)])
            []).2) ≤ 1) := by
  refine ⟨⟨rfl, ?_⟩, ?_⟩
  · decide
  · exact c1_singleflight (mkConfig {}) envA "k" 0 0 10 [(1, 11), (2, 12)] []
      rfl (by decide)

/-- C6: when the fetch callback rejects, the first caller receives the
failure and an `Errored` entry holding the same failed future is written
with the error timeout; a second caller before that timeout elapses gets
the identical failure from the shared future without any fetch-callback
invocation; and a third caller at or after the timeout finds the entry
expired and makes exactly one fresh fetch-callback invocation. -/
theorem c6_error_flow (cfg : Config) (env : Env) (url : String)
    (request : Request) (t1 ts1 t2 t3 ts3 jit1 jit3 : Nat) (e : CacheError)
    (fetch1 fetch3 : Nat → HeaderMap → Except CacheError Response)
    (p1 p3 : PromiseId) (s0 : CacheState)
    (h0 : s0.store.lookup url = none)
    (hf : fetch1 0 [] = .error e)
    (ht2 : t2 < ts1 + cfg.errorTimeout)
    (ht3 : ts1 + cfg.errorTimeout ≤ t3) :
    ∃ s1 : CacheState,
      getCachedRun cfg env false url request t1 ts1 none fetch1 jit1 p1
          false 1 s0 = some (s1, .error e, [[]])
      ∧ s1.store.lookup url
        = some ⟨{ cost := 30000, isError := true, promise := p1 },
                ts1 + cfg.errorTimeout⟩
      ∧ getCachedRun cfg env false url request t2 t2 none fetch3 jit3 p3
          false 1 s1 = some (s1, .error e, [])
      ∧ ∃ x, getCachedRun cfg env false url request t3 ts3 none fetch3 jit3
          p3 false 1 s1 = some x ∧ x.2.2 = [[]] := by
  have hget0 : s0.store.get t1 url = none :=
    Store.get_eq_none_of_lookup_eq_none _ _ _ h0
  have hres1 : getResult env request none (.error .badArgs) none fetch1
      = (.error e, [[]]) := by
    simp [getResult, getResultFullFetch, hf]
  refine ⟨⟨(s0.store.set t1 url { cost := 1, temp := true, promise := p1 }
      cfg.busyTimeout).set ts1 url
      { cost := 30000, isError := true, promise := p1 } cfg.errorTimeout,
      s0.promises.mutate p1 (.error e)⟩, ?_, ?_, ?_, ?_⟩
  · unfold getCachedRun
    rw [hget0]
    simp [getCachedBody, getCachedMiss, hres1, settleGetCached]
  · rw [Store.lookup_set]
  · have hget2 : ((s0.store.set t1 url
        { cost := 1, temp := true, promise := p1 } cfg.busyTimeout).set ts1
        url { cost := 30000, isError := true, promise := p1 }
        cfg.errorTimeout).get t2 url
        = some { cost := 30000, isError := true, promise := p1 } := by
      rw [Store.get_set]
      simp [ht2]
    unfold getCachedRun
    rw [hget2]
    simp [getCachedBody, PromiseTable.resolve_mutate]
  · have hget3 : ((s0.store.set t1 url
        { cost := 1, temp := true, promise := p1 } cfg.busyTimeout).set ts1
        url { cost := 30000, isError := true, promise := p1 }
        cfg.errorTimeout).get t3 url = none := by
      rw [Store.get_set]
      simp [Nat.not_lt_of_ge ht3]
    refine ⟨getCachedBody cfg env false url request t3 ts3 none fetch3 jit3
      p3 false none
      ⟨(s0.store.set t1 url { cost := 1, temp := true, promise := p1 }
          cfg.busyTimeout).set ts1 url
          { cost := 30000, isError := true, promise := p1 } cfg.errorTimeout,
        s0.promises.mutate p1 (.error e)⟩, ?_, ?_⟩
    · unfold getCachedRun
      rw [hget3]
    · have hcalls := getResultFullFetch_calls env request fetch3
      simp [getCachedBody, getCachedMiss, getResult, hcalls]

/-- C6 witness: a concrete rejected fetch is cached as an error entry,
shared with a second caller inside the error timeout, and refetched by a
third caller after it. -/
theorem c6_witness :
    ((⟨[], []⟩ : CacheState).store.lookup "k" = none
     ∧ (fun _ _ => (Except.error (.fetchFailure "boom") :
          Except CacheError Response)) 0 ([] : HeaderMap)
        = .error (.fetchFailure "boom")
     ∧ 100 < 0 + (mkConfig {}).errorTimeout
     ∧ 0 + (mkConfig {}).errorTimeout ≤ 300)
    ∧ ∃ s1 : CacheState,
      getCachedRun (mkConfig {}) envA false "k" 0 0 0 none
          (fun _ _ => .error (.fetchFailure "boom")) 0 7 false 1 ⟨[], []⟩
        = some (s1, .error (.fetchFailure "boom"), [[]])
      ∧ s1.store.lookup "k"
        = some ⟨{ cost := 30000, isError := true, promise := 7 },
                0 + (mkConfig {}).errorTimeout⟩
      ∧ getCachedRun (mkConfig {}) envA false "k" 0 100 100 none
          (fun _ _ => .ok resA) 0 8 false 1 s1
        = some (s1, .error (.fetchFailure "boom"), [])
      ∧ ∃ x, getCachedRun (mkConfig {}) envA false "k" 0 300 300 none
          (fun _ _ => .ok resA) 0 8 false 1 s1 = some x ∧ x.2.2 = [[]] := by
  refine ⟨⟨rfl, rfl, by decide, by decide⟩, ?_⟩
  exact c6_error_flow (mkConfig {}) envA "k" 0 0 0 100 300 300 0 0
    (.fetchFailure "boom") (fun _ _ => .error (.fetchFailure "boom"))
    (fun _ _ => .ok resA) 7 8 ⟨[], []⟩ rfl rfl (by decide) (by decide)

end Im2Cache
